import Mathlib

/-!
Shallow embedding of `src/gemini_bot.py` (a single-file DCA trading bot for the
Gemini exchange).  Python `Decimal` values are modelled as exact rationals `ℚ`
(the script works at 28-digit decimal precision on prices/amounts far below
that scale, so the arithmetic it performs is exact).  Increments
(`tick_size`, `quote_increment`) are normalized powers of ten in the exchange
metadata, so `Decimal.quantize(inc, mode)` — which rounds to the *exponent* of
`inc` — is modelled as rounding to an integer multiple of `inc` with the given
rounding mode.  The `float(...)` cast applied when serializing the order size
for the HTTP request is a wire-format conversion and is modelled as the
identity (binary floating-point representation is out of scope).
-/

namespace GeminiBot

/-- Order side; the script's `order_side` string after `.lower()`
(`"buy"` / `"sell"`, line 84 and lines 138-141). -/
inductive Side
  | buy
  | sell
deriving DecidableEq, Repr

/-- Rounding to the nearest integer with ties to the even integer:
the default `decimal.ROUND_HALF_EVEN` context mode used by the bare
`Decimal.quantize(inc)` calls (lines 134-135, 155, 162). -/
def roundHalfEvenInt (q : ℚ) : ℤ :=
  if q - ⌊q⌋ < 1/2 then ⌊q⌋
  else if 1/2 < q - ⌊q⌋ then ⌊q⌋ + 1
  else if ⌊q⌋ % 2 = 0 then ⌊q⌋ else ⌊q⌋ + 1

/-- Truncation toward zero: `decimal.ROUND_DOWN` (line 139). -/
def roundDownInt (q : ℚ) : ℤ :=
  if 0 ≤ q then ⌊q⌋ else ⌈q⌉

/-- Rounding away from zero: `decimal.ROUND_UP` (line 141). -/
def roundUpInt (q : ℚ) : ℤ :=
  if 0 ≤ q then ⌈q⌉ else ⌊q⌋

/-- `x.quantize(inc)` with the default half-even context rounding. -/
def quantize (x inc : ℚ) : ℚ := (roundHalfEvenInt (x / inc) : ℚ) * inc

/-- `x.quantize(inc, decimal.ROUND_DOWN)`. -/
def quantizeDown (x inc : ℚ) : ℚ := (roundDownInt (x / inc) : ℚ) * inc

/-- `x.quantize(inc, decimal.ROUND_UP)`. -/
def quantizeUp (x inc : ℚ) : ℚ := (roundUpInt (x / inc) : ℚ) * inc

/-- `calculate_midmarket_price` (lines 131-146): best bid and best ask are each
quantized to `quote_increment`, averaged, floored (via `math.floor`, toward
negative infinity) to an integer number of increments, scaled back, and the
result is re-quantized with `ROUND_DOWN` for a buy and `ROUND_UP` for a sell. -/
def calculate_midmarket_price (order_side : Side) (bid_raw ask_raw quote_increment : ℚ) : ℚ :=
  match order_side with
  | .buy =>
      quantizeDown
        ((⌊(quantize ask_raw quote_increment + quantize bid_raw quote_increment) / 2
            / quote_increment⌋ : ℚ) * quote_increment) quote_increment
  | .sell =>
      quantizeUp
        ((⌊(quantize ask_raw quote_increment + quantize bid_raw quote_increment) / 2
            / quote_increment⌋ : ℚ) * quote_increment) quote_increment

/-- The base-currency order size submitted by `place_order` (lines 149-169):
`(amount / price).quantize(base_increment)` when the amount is denominated in
the quote currency, `amount.quantize(base_increment)` when denominated in the
base currency.  `base_increment` is the market's `tick_size` (line 117). -/
def order_size (amount_currency_is_quote_currency : Bool) (amount price base_increment : ℚ) : ℚ :=
  if amount_currency_is_quote_currency then quantize (amount / price) base_increment
  else quantize amount base_increment

/-- The fields of an exchange order snapshot inspected by the monitoring loop
(lines 183, 188). -/
structure Order where
  remaining_amount : ℚ
  is_cancelled : Bool
deriving DecidableEq, Repr

/-- Terminal outcomes of the monitoring loop (lines 179-202): the loop exits
normally when `remaining_amount` reaches 0 (FILLED, lines 199-202), or calls
`exit()` after printing OPEN/UNFILLED (timeout, lines 184-186) or CANCELLED
(lines 188-191). -/
inductive MonitorResult
  | filled
  | timedOut
  | cancelled
deriving DecidableEq, Repr

/-- Calls the script can make on the `GeminiApiConnection` collaborator.
`cancelOrder` exists on the exchange API but is never issued by this script —
it is included so "no cancellation request is made" is expressible. -/
inductive ApiCall
  | symbolDetails
  | orderBook
  | newOrder
  | orderStatus
  | cancelOrder
deriving DecidableEq, Repr

/-- The monitoring loop (lines 179-196).  `polls` is the stream of snapshots
`order_status` would return on successive calls; the returned list records the
API calls issued from this point on (one `orderStatus` per poll).  `none`
models the loop still running after the supplied stream is exhausted.
Conditions appear in source order: the `while` guard `remaining_amount > 0`
(exit of the loop = filled), then `total_wait_time > warn_after` (timeout),
then `is_cancelled`; otherwise sleep 60, add 60 to the total, re-fetch. -/
def runMonitor (warn_after : ℤ) (order : Order) (total_wait_time : ℤ) (polls : List Order) :
    Option (MonitorResult × List ApiCall) :=
  if order.remaining_amount ≤ 0 then some (.filled, [])
  else if warn_after < total_wait_time then some (.timedOut, [])
  else if order.is_cancelled then some (.cancelled, [])
  else
    match polls with
    | [] => none
    | next :: rest =>
        (runMonitor warn_after next (total_wait_time + 60) rest).map
          (fun p => (p.1, ApiCall.orderStatus :: p.2))

/-- The exchange metadata for a market, as returned by `symbol_details`
(lines 112-118). -/
structure SymbolDetails where
  base_currency : String
  quote_currency : String
  min_order_size : ℚ
  tick_size : ℚ
  quote_increment : ℚ
deriving DecidableEq, Repr

/-- Best bid / best ask of the one order book snapshot fetched per run
(lines 132-135). -/
structure OrderBookSnapshot where
  bid : ℚ
  ask : ℚ
deriving DecidableEq, Repr

/-- The `amount_currency` validation (lines 119-124): quote currency is
checked first, then base currency, otherwise the script raises. -/
def resolve_amount_currency (market_name amount_currency quote_currency base_currency : String) :
    Except String Bool :=
  if amount_currency = quote_currency then .ok true
  else if amount_currency = base_currency then .ok false
  else .error ("amount_currency " ++ amount_currency ++ " not in market " ++ market_name)

/-- How a run ends before the monitoring loop starts. -/
inductive RunOutcome
  | abortedByUser
  | invalidCurrency (msg : String)
  | placed (price : ℚ) (size : ℚ)
deriving DecidableEq, Repr

/-- Result of the production-confirmation gate. -/
inductive ConfirmOutcome
  | proceed
  | abortNormal
deriving DecidableEq, Repr

/-- The prompt printed before a production purchase (line 93). -/
def confirmation_prompt : String := "Production purchase! Confirm [Y]: "

/-- Lines 92-96: when neither sandbox nor job mode is set the script prompts
and, unless the response is exactly `"Y"`, prints a message and calls `exit()`
with no argument (normal, zero-status termination).  The first component is
the prompt shown (`none` when no prompt occurs). -/
def confirm_gate (sandbox_mode job_mode : Bool) (response : String) :
    Option String × ConfirmOutcome :=
  if !sandbox_mode && !job_mode then
    (some confirmation_prompt, if response = "Y" then .proceed else .abortNormal)
  else (none, .proceed)

/-- The straight-line part of `__main__` after the confirmation gate and the
`symbol_details` fetch (lines 112-173): validate `amount_currency`, then fetch
the order book, compute the price, and submit the order.  Returns the API
calls issued together with the outcome; on a currency mismatch the script
raises before `current_order_book` or `new_order` is ever called. -/
def run_after_confirm (market_name : String) (order_side : Side) (amount : ℚ)
    (amount_currency : String) (details : SymbolDetails) (book : OrderBookSnapshot) :
    List ApiCall × RunOutcome :=
  match resolve_amount_currency market_name amount_currency
      details.quote_currency details.base_currency with
  | .error e => ([.symbolDetails], .invalidCurrency e)
  | .ok isQuote =>
      let price := calculate_midmarket_price order_side book.bid book.ask details.quote_increment
      ([.symbolDetails, .orderBook, .newOrder],
        .placed price (order_size isQuote amount price details.tick_size))

/-- The full pre-monitor run (lines 80-173): confirmation gate, then the rest.
First component: the prompt shown, if any; second: API calls; third: outcome. -/
def run_trade (sandbox_mode job_mode : Bool) (response : String)
    (market_name : String) (order_side : Side) (amount : ℚ) (amount_currency : String)
    (details : SymbolDetails) (book : OrderBookSnapshot) :
    Option String × List ApiCall × RunOutcome :=
  let gate := confirm_gate sandbox_mode job_mode response
  match gate.2 with
  | .abortNormal => (gate.1, [], .abortedByUser)
  | .proceed =>
      let r := run_after_confirm market_name order_side amount amount_currency details book
      (gate.1, r.1, r.2)

/-- `argparse` choices for the `order_side` positional argument
(lines 43-45); argparse membership checks are case-sensitive. -/
def order_side_choices : List String := ["BUY", "SELL"]

/-- Argument-parsing acceptance of `order_side`: `none` means argparse rejects
the invocation with an invalid-choice error. -/
def parse_order_side (s : String) : Option String :=
  if s ∈ order_side_choices then some s else none

/-- ASCII lowercasing, character by character: the model of Python's
`str.lower()` on the ASCII `choices` values. -/
def lowerString (s : String) : String := String.mk (s.data.map Char.toLower)

/-- Line 84: `order_side = args.order_side.lower()` applied to the value that
survived argparse. -/
def normalized_order_side (s : String) : Option String :=
  (parse_order_side s).map lowerString

/-! ### Arithmetic helper lemmas -/

theorem roundHalfEvenInt_intCast (n : ℤ) : roundHalfEvenInt (n : ℚ) = n := by
  unfold roundHalfEvenInt
  rw [Int.floor_intCast]
  norm_num

theorem roundDownInt_intCast (n : ℤ) : roundDownInt (n : ℚ) = n := by
  unfold roundDownInt
  rw [Int.floor_intCast, Int.ceil_intCast]
  split_ifs <;> rfl

theorem roundUpInt_intCast (n : ℤ) : roundUpInt (n : ℚ) = n := by
  unfold roundUpInt
  rw [Int.floor_intCast, Int.ceil_intCast]
  split_ifs <;> rfl

theorem abs_roundHalfEvenInt_sub (q : ℚ) : |(roundHalfEvenInt q : ℚ) - q| ≤ 1 / 2 := by
  have h0 : (⌊q⌋ : ℚ) ≤ q := Int.floor_le q
  have h1 : q < (⌊q⌋ : ℚ) + 1 := Int.lt_floor_add_one q
  unfold roundHalfEvenInt
  split_ifs with hlt hgt heven
  · rw [abs_le]
    constructor <;> linarith
  · push_cast
    rw [abs_le]
    constructor <;> linarith
  · rw [abs_le]
    have h2 := not_lt.mp hlt
    have h3 := not_lt.mp hgt
    constructor <;> linarith
  · push_cast
    rw [abs_le]
    have h2 := not_lt.mp hlt
    have h3 := not_lt.mp hgt
    constructor <;> linarith

theorem quantizeDown_int_mul (n : ℤ) (inc : ℚ) (h : inc ≠ 0) :
    quantizeDown ((n : ℚ) * inc) inc = (n : ℚ) * inc := by
  unfold quantizeDown
  rw [mul_div_assoc, div_self h, mul_one, roundDownInt_intCast]

theorem quantizeUp_int_mul (n : ℤ) (inc : ℚ) (h : inc ≠ 0) :
    quantizeUp ((n : ℚ) * inc) inc = (n : ℚ) * inc := by
  unfold quantizeUp
  rw [mul_div_assoc, div_self h, mul_one, roundUpInt_intCast]

theorem quantize_eval (x inc : ℚ) (n : ℤ) (h : x / inc = (n : ℚ)) :
    quantize x inc = (n : ℚ) * inc := by
  unfold quantize
  rw [h, roundHalfEvenInt_intCast]

theorem abs_quantize_sub (x inc : ℚ) (h : 0 < inc) : |quantize x inc - x| ≤ inc / 2 := by
  have h1 := abs_roundHalfEvenInt_sub (x / inc)
  have hne : inc ≠ 0 := ne_of_gt h
  have key : quantize x inc - x = ((roundHalfEvenInt (x / inc) : ℚ) - x / inc) * inc := by
    unfold quantize
    rw [sub_mul, div_mul_cancel₀ x hne]
  rw [key, abs_mul, abs_of_pos h]
  have h2 := mul_le_mul_of_nonneg_right h1 (le_of_lt h)
  linarith

theorem floor_mul_le (m inc : ℚ) (h : 0 < inc) : (⌊m / inc⌋ : ℚ) * inc ≤ m := by
  rw [← le_div_iff₀ h]
  exact Int.floor_le _

theorem le_floor_mul (m inc : ℚ) (h : 0 < inc) (n : ℤ) (hn : (n : ℚ) * inc ≤ m) :
    (n : ℚ) * inc ≤ (⌊m / inc⌋ : ℚ) * inc := by
  have h1 : (n : ℚ) ≤ m / inc := (le_div_iff₀ h).mpr hn
  have h2 : (n : ℚ) ≤ (⌊m / inc⌋ : ℚ) := by
    exact_mod_cast Int.le_floor.mpr h1
  exact mul_le_mul_of_nonneg_right h2 (le_of_lt h)

theorem calculate_midmarket_price_eq (side : Side) (bid ask inc : ℚ) (h : inc ≠ 0) :
    calculate_midmarket_price side bid ask inc =
      (⌊(quantize ask inc + quantize bid inc) / 2 / inc⌋ : ℚ) * inc := by
  cases side
  · exact quantizeDown_int_mul _ _ h
  · exact quantizeUp_int_mul _ _ h

/-! ### Monitoring-loop helper lemmas -/

theorem runMonitor_filled (w : ℤ) (o : Order) (t : ℤ) (polls : List Order)
    (h : o.remaining_amount ≤ 0) : runMonitor w o t polls = some (.filled, []) := by
  rw [runMonitor.eq_def, if_pos h]

theorem runMonitor_timedOut (w : ℤ) (o : Order) (t : ℤ) (polls : List Order)
    (hr : 0 < o.remaining_amount) (ht : w < t) :
    runMonitor w o t polls = some (.timedOut, []) := by
  rw [runMonitor.eq_def, if_neg (not_le.mpr hr), if_pos ht]

theorem runMonitor_cancelled (w : ℤ) (o : Order) (t : ℤ) (polls : List Order)
    (hr : 0 < o.remaining_amount) (ht : ¬ w < t) (hc : o.is_cancelled = true) :
    runMonitor w o t polls = some (.cancelled, []) := by
  rw [runMonitor.eq_def, if_neg (not_le.mpr hr), if_neg ht, if_pos hc]

theorem runMonitor_step (w : ℤ) (o : Order) (t : ℤ) (next : Order) (rest : List Order)
    (hr : 0 < o.remaining_amount) (ht : ¬ w < t) (hc : o.is_cancelled = false) :
    runMonitor w o t (next :: rest) =
      (runMonitor w next (t + 60) rest).map (fun p => (p.1, ApiCall.orderStatus :: p.2)) := by
  conv_lhs => rw [runMonitor.eq_def]
  rw [if_neg (not_le.mpr hr), if_neg ht, if_neg (show ¬ o.is_cancelled = true by simp [hc])]

/-! ### Claim theorems -/

/-- C1: the spec claims the SELL price is rounded up, hence ≥ the raw midpoint
whenever that midpoint is off-increment, and that for bid 19999.51,
ask 20000.52, increment 0.01 the sell price is 20000.02.  The code floors the
midpoint to an increment multiple and then quantizes that already-aligned
value with `ROUND_UP`, a no-op, so the sell price equals the buy price
20000.01, strictly below the raw midpoint 20000.015.  This theorem evaluates
the code at that failing input. -/
theorem C1_sell_price_not_rounded_up :
    calculate_midmarket_price .sell (1999951/100) (2000052/100) (1/100) = 2000001/100 ∧
    calculate_midmarket_price .buy (1999951/100) (2000052/100) (1/100) = 2000001/100 ∧
    (2000001/100 : ℚ) < ((1999951/100 : ℚ) + 2000052/100) / 2 := by
  have hbid := quantize_eval (1999951/100 : ℚ) (1/100) 1999951 (by norm_num)
  have hask := quantize_eval (2000052/100 : ℚ) (1/100) 2000052 (by norm_num)
  have hfl : ⌊(quantize (2000052/100 : ℚ) (1/100) + quantize (1999951/100 : ℚ) (1/100))
      / 2 / (1/100)⌋ = 2000001 := by
    rw [hask, hbid]
    rw [Int.floor_eq_iff]
    constructor <;> norm_num
  refine ⟨?_, ?_, by norm_num⟩
  · rw [calculate_midmarket_price_eq .sell (1999951/100) (2000052/100) (1/100) (by norm_num), hfl]
    norm_num
  · rw [calculate_midmarket_price_eq .buy (1999951/100) (2000052/100) (1/100) (by norm_num), hfl]
    norm_num

/-- C2: for every side, every bid/ask pair and every positive increment, the
computed price equals the quantized-bid/ask midpoint divided by the increment,
floored toward negative infinity, and scaled back — the largest
increment-multiple that is ≤ that midpoint. -/
theorem C2_price_is_floor_to_increment (side : Side) (bid ask inc m : ℚ)
    (hinc : 0 < inc) (hm : m = (quantize ask inc + quantize bid inc) / 2) :
    calculate_midmarket_price side bid ask inc = (⌊m / inc⌋ : ℚ) * inc ∧
    (⌊m / inc⌋ : ℚ) * inc ≤ m ∧
    ∀ n : ℤ, (n : ℚ) * inc ≤ m → (n : ℚ) * inc ≤ (⌊m / inc⌋ : ℚ) * inc :=
  hm ▸ ⟨calculate_midmarket_price_eq side bid ask inc (ne_of_gt hinc),
    floor_mul_le _ _ hinc, fun n hn => le_floor_mul _ _ hinc n hn⟩

/-- Witness for C2 at bid = 1, ask = 2, inc = 1 (quantized midpoint 3/2). -/
theorem C2_price_is_floor_to_increment_witness :
    (0 < (1 : ℚ)) ∧
    ((3/2 : ℚ) = (quantize 2 1 + quantize 1 1) / 2) ∧
    (calculate_midmarket_price .buy 1 2 1 = (⌊(3/2 : ℚ) / 1⌋ : ℚ) * 1 ∧
      (⌊(3/2 : ℚ) / 1⌋ : ℚ) * 1 ≤ 3/2 ∧
      ∀ n : ℤ, (n : ℚ) * 1 ≤ 3/2 → (n : ℚ) * 1 ≤ (⌊(3/2 : ℚ) / 1⌋ : ℚ) * 1) :=
  ⟨by norm_num,
   by rw [quantize_eval 2 1 2 (by norm_num), quantize_eval 1 1 1 (by norm_num)]; norm_num,
   C2_price_is_floor_to_increment .buy 1 2 1 (3/2) (by norm_num)
     (by rw [quantize_eval 2 1 2 (by norm_num), quantize_eval 1 1 1 (by norm_num)]; norm_num)⟩

/-- C4: for a quote-denominated request the submitted size is
`amount / price` quantized to the size increment, hence an exact integer
multiple of the increment, and it differs from `amount / price` by at most one
increment. -/
theorem C4_quote_denominated_size (amount price inc : ℚ)
    (hp : 0 < price) (hi : 0 < inc) :
    order_size true amount price inc = quantize (amount / price) inc ∧
    (∃ n : ℤ, order_size true amount price inc = (n : ℚ) * inc) ∧
    |order_size true amount price inc - amount / price| ≤ inc := by
  refine ⟨rfl, ⟨roundHalfEvenInt (amount / price / inc), rfl⟩, ?_⟩
  have h2 : |quantize (amount / price) inc - amount / price| ≤ inc / 2 :=
    abs_quantize_sub (amount / price) inc hi
  calc |order_size true amount price inc - amount / price|
      = |quantize (amount / price) inc - amount / price| := rfl
    _ ≤ inc / 2 := h2
    _ ≤ inc := by linarith

/-- Witness for C4 at amount = 10, price = 2, inc = 1. -/
theorem C4_quote_denominated_size_witness :
    (0 < (2 : ℚ)) ∧ (0 < (1 : ℚ)) ∧
    (order_size true 10 2 1 = quantize (10 / 2) 1 ∧
      (∃ n : ℤ, order_size true 10 2 1 = (n : ℚ) * 1) ∧
      |order_size true 10 2 1 - 10 / 2| ≤ 1) :=
  ⟨by norm_num, by norm_num, C4_quote_denominated_size 10 2 1 (by norm_num) (by norm_num)⟩

/-- C5: for a base-denominated request the submitted size is the requested
amount quantized to the size increment, independent of the execution price. -/
theorem C5_base_denominated_size (amount price price2 inc : ℚ) :
    order_size false amount price inc = quantize amount inc ∧
    order_size false amount price inc = order_size false amount price2 inc :=
  ⟨rfl, rfl⟩

/-- C3: whenever the monitor re-evaluates with a pending order
(remaining amount > 0, not cancelled) and the accumulated wait already exceeds
`warn_after`, it terminates reporting the order open/unfilled, issuing no
further API calls and in particular no cancellation; with warn_after = 120 and
the fixed 60-unit interval, starting from a pending order and three pending
polls, it times out after exactly 3 status polls (wait 180 > 120), and the
call trace contains no cancellation request. -/
theorem C3_timeout_reports_open_unfilled :
    (∀ (warn_after total : ℤ) (o : Order) (polls : List Order),
        0 < o.remaining_amount → o.is_cancelled = false → warn_after < total →
        runMonitor warn_after o total polls = some (.timedOut, [])) ∧
    (∀ o0 o1 o2 o3 : Order,
        0 < o0.remaining_amount → o0.is_cancelled = false →
        0 < o1.remaining_amount → o1.is_cancelled = false →
        0 < o2.remaining_amount → o2.is_cancelled = false →
        0 < o3.remaining_amount → o3.is_cancelled = false →
        runMonitor 120 o0 0 [o1, o2, o3] =
          some (.timedOut, [.orderStatus, .orderStatus, .orderStatus]) ∧
        ApiCall.cancelOrder ∉ [ApiCall.orderStatus, ApiCall.orderStatus, ApiCall.orderStatus]) := by
  constructor
  · intro w t o polls hr _ ht
    exact runMonitor_timedOut w o t polls hr ht
  · intro o0 o1 o2 o3 h0r h0c h1r h1c h2r h2c h3r h3c
    refine ⟨?_, by decide⟩
    rw [runMonitor_step 120 o0 0 o1 [o2, o3] h0r (by decide) h0c]
    rw [runMonitor_step 120 o1 (0 + 60) o2 [o3] h1r (by decide) h1c]
    rw [runMonitor_step 120 o2 (0 + 60 + 60) o3 [] h2r (by decide) h2c]
    rw [runMonitor_timedOut 120 o3 (0 + 60 + 60 + 60) [] h3r (by decide)]
    rfl

/-- Witness for C3 with the pending order ⟨1, false⟩ everywhere. -/
theorem C3_timeout_reports_open_unfilled_witness :
    (0 < (Order.mk 1 false).remaining_amount) ∧
    ((Order.mk 1 false).is_cancelled = false) ∧
    ((0 : ℤ) < 1) ∧
    (runMonitor 0 (Order.mk 1 false) 1 [] = some (.timedOut, [])) ∧
    (runMonitor 120 (Order.mk 1 false) 0 [Order.mk 1 false, Order.mk 1 false, Order.mk 1 false] =
        some (.timedOut, [.orderStatus, .orderStatus, .orderStatus]) ∧
      ApiCall.cancelOrder ∉ [ApiCall.orderStatus, ApiCall.orderStatus, ApiCall.orderStatus]) :=
  ⟨by norm_num, rfl, by decide,
   C3_timeout_reports_open_unfilled.1 0 1 (Order.mk 1 false) [] (by norm_num) rfl (by decide),
   C3_timeout_reports_open_unfilled.2 (Order.mk 1 false) (Order.mk 1 false) (Order.mk 1 false)
     (Order.mk 1 false) (by norm_num) rfl (by norm_num) rfl (by norm_num) rfl (by norm_num) rfl⟩

/-- C6: a status with remaining amount > 0 and is_cancelled = true observed
while the accumulated wait has not yet exceeded `warn_after` makes the monitor
terminate reporting CANCELLED (which is distinct from FILLED); in particular
with the default warn_after = 300, two pending polls followed by a cancelled
poll end in CANCELLED after the three status calls. -/
theorem C6_cancelled_reported :
    (∀ (w t : ℤ) (o : Order) (polls : List Order),
        0 < o.remaining_amount → o.is_cancelled = true → t ≤ w →
        runMonitor w o t polls = some (.cancelled, []) ∧
        MonitorResult.cancelled ≠ MonitorResult.filled) ∧
    (∀ o0 o1 o2 c : Order,
        0 < o0.remaining_amount → o0.is_cancelled = false →
        0 < o1.remaining_amount → o1.is_cancelled = false →
        0 < o2.remaining_amount → o2.is_cancelled = false →
        0 < c.remaining_amount → c.is_cancelled = true →
        runMonitor 300 o0 0 [o1, o2, c] =
          some (.cancelled, [.orderStatus, .orderStatus, .orderStatus])) := by
  constructor
  · intro w t o polls hr hc ht
    exact ⟨runMonitor_cancelled w o t polls hr (not_lt.mpr ht) hc, by decide⟩
  · intro o0 o1 o2 c h0r h0c h1r h1c h2r h2c hcr hcc
    rw [runMonitor_step 300 o0 0 o1 [o2, c] h0r (by decide) h0c]
    rw [runMonitor_step 300 o1 (0 + 60) o2 [c] h1r (by decide) h1c]
    rw [runMonitor_step 300 o2 (0 + 60 + 60) c [] h2r (by decide) h2c]
    rw [runMonitor_cancelled 300 c (0 + 60 + 60 + 60) [] hcr (by decide) hcc]
    rfl

/-- Witness for C6: pending order ⟨1, false⟩, cancelled order ⟨1, true⟩. -/
theorem C6_cancelled_reported_witness :
    (0 < (Order.mk 1 true).remaining_amount) ∧
    ((Order.mk 1 true).is_cancelled = true) ∧
    ((0 : ℤ) ≤ 5) ∧
    (runMonitor 5 (Order.mk 1 true) 0 [] = some (.cancelled, []) ∧
      MonitorResult.cancelled ≠ MonitorResult.filled) ∧
    (runMonitor 300 (Order.mk 1 false) 0 [Order.mk 1 false, Order.mk 1 false, Order.mk 1 true] =
        some (.cancelled, [.orderStatus, .orderStatus, .orderStatus])) :=
  ⟨by norm_num, rfl, by decide,
   C6_cancelled_reported.1 5 0 (Order.mk 1 true) [] (by norm_num) rfl (by decide),
   C6_cancelled_reported.2 (Order.mk 1 false) (Order.mk 1 false) (Order.mk 1 false)
     (Order.mk 1 true) (by norm_num) rfl (by norm_num) rfl (by norm_num) rfl (by norm_num) rfl⟩

/-- C10: the filled check (the `while` guard) takes precedence over every
other terminal condition — a fetched status with remaining amount 0 makes the
monitor report FILLED immediately, for every `warn_after`, every accumulated
wait (even one already past the threshold) and every `is_cancelled` flag. -/
theorem C10_filled_takes_precedence (w t : ℤ) (o : Order) (polls : List Order)
    (h : o.remaining_amount = 0) :
    runMonitor w o t polls = some (.filled, []) :=
  runMonitor_filled w o t polls (le_of_eq h)

/-- Witness for C10: a cancelled order with remaining 0, wait 100 already past
warn_after 0, still reports FILLED. -/
theorem C10_filled_takes_precedence_witness :
    ((Order.mk 0 true).remaining_amount = 0) ∧
    runMonitor 0 (Order.mk 0 true) 100 [] = some (.filled, []) :=
  ⟨rfl, C10_filled_takes_precedence 0 100 (Order.mk 0 true) [] rfl⟩

/-- C7 counterexample: the claim says the lowercase spelling "buy" is accepted
on input; argparse `choices=["BUY", "SELL"]` is case-sensitive, so "buy" is
rejected at argument parsing. -/
theorem C7_lowercase_rejected : normalized_order_side "buy" = none := by decide

/-- C7 (amended): the order_side positional argument accepts exactly the
uppercase strings "BUY" and "SELL" (case-sensitively — any other spelling,
including "buy", is rejected by argparse), and an accepted value is normalized
to lowercase internally before use. -/
theorem C7_order_side_uppercase_only (s : String) :
    normalized_order_side s =
      if s = "BUY" then some "buy" else if s = "SELL" then some "sell" else none := by
  by_cases h1 : s = "BUY"
  · subst h1; decide
  · by_cases h2 : s = "SELL"
    · subst h2; decide
    · simp [normalized_order_side, parse_order_side, order_side_choices, h1, h2]

/-- C8: an `amount_currency` equal to neither the market's base nor quote
currency makes the run fail with the invalid-currency error right after the
`symbol_details` call — before any order-book fetch or order submission; an
`amount_currency` equal to the quote currency is treated as quote-denominated
and one equal to the base currency (of a market whose base and quote
currencies differ, as on a real exchange) as base-denominated. -/
theorem C8_amount_currency_validation (mk : String) (side : Side) (amt : ℚ)
    (ac : String) (d : SymbolDetails) (bk : OrderBookSnapshot) :
    (ac ≠ d.quote_currency → ac ≠ d.base_currency →
      run_after_confirm mk side amt ac d bk =
        ([ApiCall.symbolDetails],
          .invalidCurrency ("amount_currency " ++ ac ++ " not in market " ++ mk)) ∧
      ApiCall.orderBook ∉ [ApiCall.symbolDetails] ∧
      ApiCall.newOrder ∉ [ApiCall.symbolDetails]) ∧
    (ac = d.quote_currency →
      run_after_confirm mk side amt ac d bk =
        ([ApiCall.symbolDetails, ApiCall.orderBook, ApiCall.newOrder],
          .placed (calculate_midmarket_price side bk.bid bk.ask d.quote_increment)
            (order_size true amt
              (calculate_midmarket_price side bk.bid bk.ask d.quote_increment) d.tick_size))) ∧
    (ac = d.base_currency → ac ≠ d.quote_currency →
      run_after_confirm mk side amt ac d bk =
        ([ApiCall.symbolDetails, ApiCall.orderBook, ApiCall.newOrder],
          .placed (calculate_midmarket_price side bk.bid bk.ask d.quote_increment)
            (order_size false amt
              (calculate_midmarket_price side bk.bid bk.ask d.quote_increment) d.tick_size))) := by
  refine ⟨fun hq hb => ⟨?_, by decide, by decide⟩, fun hq => ?_, fun hb hq => ?_⟩
  · simp [run_after_confirm, resolve_amount_currency, hq, hb]
  · simp [run_after_confirm, resolve_amount_currency, hq]
  · subst hb
    simp [run_after_confirm, resolve_amount_currency, hq]

/-- Witness for C8 on the market BTC/USD with amount currency "EUR". -/
theorem C8_amount_currency_validation_witness :
    ("EUR" ≠ (SymbolDetails.mk "BTC" "USD" 1 1 1).quote_currency) ∧
    ("EUR" ≠ (SymbolDetails.mk "BTC" "USD" 1 1 1).base_currency) ∧
    (run_after_confirm "BTCUSD" .buy 1 "EUR" (SymbolDetails.mk "BTC" "USD" 1 1 1)
        (OrderBookSnapshot.mk 1 2) =
      ([ApiCall.symbolDetails],
        .invalidCurrency ("amount_currency " ++ "EUR" ++ " not in market " ++ "BTCUSD")) ∧
      ApiCall.orderBook ∉ [ApiCall.symbolDetails] ∧
      ApiCall.newOrder ∉ [ApiCall.symbolDetails]) :=
  ⟨by decide, by decide,
   (C8_amount_currency_validation "BTCUSD" .buy 1 "EUR" (SymbolDetails.mk "BTC" "USD" 1 1 1)
      (OrderBookSnapshot.mk 1 2)).1 (by decide) (by decide)⟩

/-- C9: with neither sandbox nor job mode the script prompts
"Production purchase! Confirm [Y]: ", and any response other than the exact
string "Y" ends the run normally with no API call issued (in particular no
order submission); with sandbox or job mode set, no prompt occurs. -/
theorem C9_confirmation_gate :
    (∀ (response mk : String) (side : Side) (amt : ℚ) (ac : String)
        (d : SymbolDetails) (bk : OrderBookSnapshot),
        response ≠ "Y" →
        run_trade false false response mk side amt ac d bk =
          (some confirmation_prompt, [], .abortedByUser)) ∧
    (∀ (sandbox_mode job_mode : Bool) (response mk : String) (side : Side) (amt : ℚ)
        (ac : String) (d : SymbolDetails) (bk : OrderBookSnapshot),
        sandbox_mode = true ∨ job_mode = true →
        (run_trade sandbox_mode job_mode response mk side amt ac d bk).1 = none) := by
  constructor
  · intro response mk side amt ac d bk hresp
    simp [run_trade, confirm_gate, hresp]
  · intro sandbox_mode job_mode response mk side amt ac d bk h
    rcases h with h | h <;> subst h
    · cases job_mode <;> simp [run_trade, confirm_gate]
    · cases sandbox_mode <;> simp [run_trade, confirm_gate]

/-- Witness for C9: the response "n" in production interactive mode aborts with
the prompt shown and no API calls. -/
theorem C9_confirmation_gate_witness :
    (("n" : String) ≠ "Y") ∧
    run_trade false false "n" "BTCUSD" .buy 1 "USD" (SymbolDetails.mk "BTC" "USD" 1 1 1)
        (OrderBookSnapshot.mk 1 2) =
      (some confirmation_prompt, [], .abortedByUser) :=
  ⟨by decide,
   C9_confirmation_gate.1 "n" "BTCUSD" .buy 1 "USD" (SymbolDetails.mk "BTC" "USD" 1 1 1)
     (OrderBookSnapshot.mk 1 2) (by decide)⟩

end GeminiBot
